import Mathlib

/-!
Shallow embedding of `approval_bot.py`, a Telegram membership-authorization
bot that gates two paid channels against a Supabase subscription registry.

The embedding covers:
- the amount-to-channel table `PAYMENT_CHANNELS` (source lines 41-46);
- the subscription lookup `check_user_subscription` (lines 48-79), with the
  registry modelled as either uninitialized (client is `None`), failing
  (the query raises), or a list of rows in registry order;
- the join-event decision logic of `handle_chat_member` (lines 81-173),
  abstracted to the `Action` it selects;
- the side-effect order of the admit branch (lines 111-130) as a call trace;
- the `/approve` command `manual_approve` (lines 175-223).

Python strings become `String`, Telegram numeric ids become `Int`,
`str(amount_paid)` becomes `toString` on `Int`, and exceptions become
explicit case analysis noted at each definition.
-/

namespace ApprovalBot

/-- True when `needle` occurs as a contiguous sublist of the second list.
Used to model the SQL `LIKE` pattern with a wildcard on both ends. -/
def isSubListOf (needle : List Char) : List Char → Bool
  | [] => needle.isEmpty
  | c :: t => needle.isPrefixOf (c :: t) || isSubListOf needle t

/-- Model of Supabase `.ilike("telegram_username", "%username%")`:
case-insensitive substring match of `pat` inside `hay` (source line 57),
with case folding on the underlying character lists. -/
def ilikeContains (hay pat : String) : Bool :=
  isSubListOf (pat.data.map Char.toLower) (hay.data.map Char.toLower)

/-- Environment-sourced channel ids `CHANNEL_49_299` and `CHANNEL_79_399`
(source lines 25-26); `main` refuses to start when either is missing
(lines 344-349), so both are plain strings here. -/
structure Config where
  ch49 : String
  ch79 : String
deriving DecidableEq, Repr

/-- One row of the `subscriptions` table. The columns the code reads are
`telegram_username`, `amount_paid`, `payment_status`, `is_active`
(select on lines 55-60); `approved_manually` is written by `/approve`
(line 212). `telegram_user_id` is a numeric identity column the spec data
model posits on the record; the code never selects or filters on it, so it
is optional here and every embedded query ignores it. -/
structure SubRow where
  telegram_user_id : Option Int
  telegram_username : String
  amount_paid : Int
  payment_status : String
  is_active : Bool
  approved_manually : Bool
deriving DecidableEq, Repr

/-- State of the registry as seen by one call: the client was never
initialized (`supabase_client` is `None`, lines 29-38), the query raises
(caught on lines 77-79), or the query returns rows in registry order. -/
inductive Registry where
  | uninit : Registry
  | failing : Registry
  | ok : List SubRow → Registry
deriving DecidableEq, Repr

/-- The server-side filter of the query on lines 55-60: case-insensitive
substring match on the username, `payment_status == "completed"`, and
`is_active == true`. The numeric `user_id` is not part of the query. -/
def matchesQuery (username : String) (r : SubRow) : Bool :=
  ilikeContains r.telegram_username username &&
    r.payment_status == "completed" && r.is_active

/-- `response.data` (line 62): the registry rows that pass the query
filter, in registry order. -/
def queryRows (rows : List SubRow) (username : String) : List SubRow :=
  rows.filter (matchesQuery username)

/-- The static `PAYMENT_CHANNELS` dict (lines 41-46) as a lookup from the
string form of the paid amount to the channel id; `none` models a key
that is absent from the dict. -/
def PAYMENT_CHANNELS (cfg : Config) (amount : String) : Option String :=
  if amount = "49" then some cfg.ch49
  else if amount = "299" then some cfg.ch49
  else if amount = "79" then some cfg.ch79
  else if amount = "399" then some cfg.ch79
  else none

/-- `check_user_subscription(user_id, username)` (lines 48-79). Returns
`(has_subscription, amount, correct_channel_id)`:
- client uninitialized: `(True, "49", CHANNEL_49_299)` (lines 50-52);
- the query raises: `(False, None, None)` (lines 77-79);
- no row passes the filter: `(False, None, None)` (lines 74-75);
- first row has an amount in `PAYMENT_CHANNELS`: `(True, amount, channel)`
  (lines 62-69);
- first row has an unknown amount: `(False, amount, None)` (lines 71-72). -/
def check_user_subscription (cfg : Config) (st : Registry)
    (user_id : Int) (username : String) :
    Bool × Option String × Option String :=
  match st with
  | .uninit => (true, some ("49"), some cfg.ch49)
  | .failing => (false, none, none)
  | .ok rows =>
    match queryRows rows username with
    | [] => (false, none, none)
    | sub :: _ =>
      let amount := toString sub.amount_paid
      match PAYMENT_CHANNELS cfg amount with
      | some channel_id => (true, some amount, some channel_id)
      | none => (false, some amount, none)

/-- The normalized membership-transition event consumed by
`handle_chat_member` (lines 84-96): the joining user id, the optional
username, the chat id as a string, and the old and new member statuses. -/
structure MemberEvent where
  user_id : Int
  username : Option String
  chat_id : String
  old_status : String
  new_status : String
deriving DecidableEq, Repr

/-- Line 88: `user.username or f"user_{user_id}"`. -/
def usernameOf (ev : MemberEvent) : String :=
  ev.username.getD ("user_" ++ toString ev.user_id)

/-- Line 101: the old statuses that count as not present. -/
def notPresentStatus (s : String) : Bool :=
  s == "left" || s == "kicked" || s == "restricted" || s == "banned"

/-- Line 102: the new statuses that count as present. -/
def presentStatus (s : String) : Bool :=
  s == "member" || s == "administrator" || s == "creator"

/-- The guard on lines 101-102: the event is a join only when the old
status is in the not-present set and the new status is in the present set. -/
def joinTransition (ev : MemberEvent) : Bool :=
  notPresentStatus ev.old_status && presentStatus ev.new_status

/-- The action `handle_chat_member` selects for an event; the executor
branches of the handler body are abstracted to this closed set. -/
inductive Action where
  | Admit : String → Action
  | RedirectEvict : String → Option String → Action
  | DenyEvict : String → Action
  | NoOp : Action
deriving DecidableEq, Repr

/-- The decision logic of `handle_chat_member` (lines 81-173):
- chat not in `[CHANNEL_49_299, CHANNEL_79_399]`: return, no action
  (lines 92-93);
- transition is not a join: the `if` on lines 101-102 is not entered,
  no action;
- otherwise call `check_user_subscription` (line 106); on
  `has_subscription` with the right channel, welcome (`Admit`, lines
  109-130); on `has_subscription` with the wrong channel, ban and point at
  `correct_channel_id` (`RedirectEvict`, lines 131-152); otherwise ban
  (`DenyEvict`, lines 153-170). Line 109 compares the chat id with the
  possibly-`None` `correct_channel_id`, hence the `some` on the left. -/
def handle_chat_member (cfg : Config) (ev : MemberEvent) (st : Registry) :
    Action :=
  if ev.chat_id ≠ cfg.ch49 ∧ ev.chat_id ≠ cfg.ch79 then .NoOp
  else if joinTransition ev then
    match check_user_subscription cfg st ev.user_id (usernameOf ev) with
    | (true, _, correct_channel_id) =>
      if some ev.chat_id = correct_channel_id then .Admit ev.chat_id
      else .RedirectEvict ev.chat_id correct_channel_id
    | (false, _, _) => .DenyEvict ev.chat_id
  else .NoOp

/-- One platform API call made by the handler or a command. -/
inductive PlatformCall where
  | unbanIfBanned : String → Int → PlatformCall
  | channelMsg : String → String → PlatformCall
  | banMember : String → Int → PlatformCall
  | userMsg : Int → String → PlatformCall
deriving DecidableEq, Repr

/-- Whether each platform call of the admit branch succeeds; failure of a
call models the corresponding `await` raising. -/
structure World where
  unbanOk : Bool
  sendOk : Bool
deriving DecidableEq, Repr

/-- The welcome text sent on line 126. -/
def welcomeText (username amount : String) : String :=
  s!"Welcome @{username}! Your subscription ({amount}) has been verified. Enjoy!"

/-- The admit branch of `handle_chat_member` (lines 111-130) as the trace
of platform calls it attempts, each paired with whether it succeeded.
Control flow of the source: the unban on lines 113-122 sits in an inner
`try` whose `except` is `pass`, so a failing unban still falls through to
the `send_message` on lines 124-127; that send sits in the outer `try`
whose `except` only logs (lines 129-130), so a failing send happens after
the unban attempt and undoes nothing. Hence the trace always contains the
unban call first and the welcome call second, whatever the outcomes. -/
def executeAdmit (chat_id : String) (user_id : Int)
    (username amount : String) (w : World) : List (PlatformCall × Bool) :=
  [(PlatformCall.unbanIfBanned chat_id user_id, w.unbanOk),
   (PlatformCall.channelMsg chat_id (welcomeText username amount), w.sendOk)]

/-- The row inserted by `/approve` (lines 207-213): the given username,
`amount_paid` 0, status completed, active, flagged as manual; the insert
names no numeric identity column. -/
def manualRecord (username : String) : SubRow :=
  { telegram_user_id := none
    telegram_username := username
    amount_paid := 0
    payment_status := "completed"
    is_active := true
    approved_manually := true }

/-- The registry after an insert (line 207-213): appended to the rows when
the client works; when the client is `None` or erroring the insert raises
and is caught by the `except` on lines 215-216, leaving the registry as
it was. -/
def insertRow (st : Registry) (r : SubRow) : Registry :=
  match st with
  | .ok rows => .ok (rows ++ [r])
  | s => s

/-- The reply sent on line 219. -/
def approvedReply (username : String) : String :=
  s!"User @{username} has been manually approved."

/-- The reply sent on line 179 when the command is not a reply to a
message (apostrophe of the source text elided). -/
def replyNeededText : String :=
  "Please reply to a user message with /approve"

/-- `manual_approve` (lines 175-223), as the pair (registry after the
command, reply text). Arguments: `caller_admin` records whether the
invoking operator holds admin or owner status in a managed channel — the
source never reads the invoking user at all, so no branch consults it;
`reply_to` is the replied-to message author `(id, username)` when the
command is a reply. Flow: without a reply target, reply with usage text
(lines 178-180); otherwise best-effort unban (lines 190-199, a platform
call, not a registry change), then `check_user_subscription` and, when it
reports no subscription, insert the manual record (lines 202-214, errors
caught on lines 215-216), then reply with the approval text (line 219). -/
def manual_approve (cfg : Config) (caller_admin : Bool)
    (reply_to : Option (Int × Option String)) (chat_id : String)
    (st : Registry) : Registry × String :=
  match reply_to with
  | none => (st, replyNeededText)
  | some (user_id, uname) =>
    let username := uname.getD ("user_" ++ toString user_id)
    match check_user_subscription cfg st user_id username with
    | (true, _, _) => (st, approvedReply username)
    | (false, _, _) => (insertRow st (manualRecord username), approvedReply username)

/-- Lookup predicate stated from the spec words (section 4.1), for
comparison with `matchesQuery`: a record matching the numeric identity OR
a case-insensitive partial match on the handle, filtered to completed and
active. -/
def specLookupMatches (identity : Int) (username : String) (r : SubRow) : Bool :=
  (r.telegram_user_id == some identity ||
      ilikeContains r.telegram_username username) &&
    r.payment_status == "completed" && r.is_active

/-! ### Concrete fixtures for witnesses and counterexamples -/

/-- A sample configuration: channel "A" for the 49/299 tier, channel "B"
for the 79/399 tier. -/
def cfgAB : Config := ⟨"A", "B"⟩

/-- The handle used in concrete scenarios. -/
def nameAlice : String := "alice"

/-- A completed active 299 subscription for alice. -/
def rowAlice299 : SubRow :=
  { telegram_user_id := none
    telegram_username := nameAlice
    amount_paid := 299
    payment_status := "completed"
    is_active := true
    approved_manually := false }

/-- A completed active subscription with the unknown amount 999. -/
def rowAlice999 : SubRow :=
  { telegram_user_id := none
    telegram_username := nameAlice
    amount_paid := 999
    payment_status := "completed"
    is_active := true
    approved_manually := false }

/-- A completed active row whose numeric identity is 7 but whose handle
shares nothing with alice. -/
def rowById7 : SubRow :=
  { telegram_user_id := some 7
    telegram_username := "zzz"
    amount_paid := 49
    payment_status := "completed"
    is_active := true
    approved_manually := false }

/-- Alice joining channel "B" from the left state. -/
def evJoinB : MemberEvent :=
  ⟨1, some nameAlice, "B", "left", "member"⟩

/-- Alice joining channel "A" from the left state. -/
def evJoinA : MemberEvent :=
  ⟨1, some nameAlice, "A", "left", "member"⟩

/-- Alice joining the unmanaged channel "C" from the left state. -/
def evJoinC : MemberEvent :=
  ⟨1, some nameAlice, "C", "left", "member"⟩

/-- Alice already a member of channel "A", observed member-to-member. -/
def evStayA : MemberEvent :=
  ⟨1, some nameAlice, "A", "member", "member"⟩

/-- The handle used in the manual-approval scenarios. -/
def nameBob : String := "bob"

/-- Bob joining channel "A" from the left state. -/
def evBobJoinA : MemberEvent :=
  ⟨6, some nameBob, "A", "left", "member"⟩

/-! ### Shared lemmas -/

/-- Taking the head of the filtered list is finding the first match. -/
theorem head_filter_eq_find (p : SubRow → Bool) (l : List SubRow) :
    (l.filter p).head? = l.find? p := by
  induction l with
  | nil => rfl
  | cons a t ih =>
    by_cases h : p a <;> simp [List.filter_cons, List.find?_cons, h, ih]

/-- Whenever the lookup reports a subscription with some amount and some
channel, that channel is exactly the image of the amount under the
`PAYMENT_CHANNELS` table. -/
theorem check_true_channel (cfg : Config) (st : Registry) (uid : Int)
    (uname : String) (amount ch : String)
    (h : check_user_subscription cfg st uid uname = (true, some amount, some ch)) :
    PAYMENT_CHANNELS cfg amount = some ch := by
  cases st with
  | uninit =>
    simp only [check_user_subscription] at h
    obtain ⟨h1, h2⟩ := Prod.mk.injEq .. ▸ h
    obtain ⟨h2, h3⟩ := Prod.mk.injEq .. ▸ h2
    simp only [Option.some.injEq] at h2 h3
    subst h2; subst h3; rfl
  | failing => simp [check_user_subscription] at h
  | ok rows =>
    simp only [check_user_subscription] at h
    cases hq : queryRows rows uname with
    | nil => rw [hq] at h; simp at h
    | cons sub rest =>
      rw [hq] at h
      simp only at h
      cases hp : PAYMENT_CHANNELS cfg (toString sub.amount_paid) with
      | none => rw [hp] at h; simp at h
      | some c =>
        rw [hp] at h
        simp only [Prod.mk.injEq, Option.some.injEq, true_and] at h
        obtain ⟨ha, hc⟩ := h
        subst ha; subst hc; exact hp

/-! ### Claim theorems -/

/-- C1: for a join event in a managed channel whose lookup reports a valid
subscription with a known amount, the handler admits when the event
channel is the designated channel of the resolved tier and otherwise
redirect-evicts naming that designated channel, which is exactly the
image of the amount under the tier table. -/
theorem c1_tier_routing (cfg : Config) (ev : MemberEvent) (st : Registry)
    (amount ch : String)
    (hm : ev.chat_id = cfg.ch49 ∨ ev.chat_id = cfg.ch79)
    (ht : joinTransition ev = true)
    (hc : check_user_subscription cfg st ev.user_id (usernameOf ev) =
      (true, some amount, some ch)) :
    handle_chat_member cfg ev st =
      (if ev.chat_id = ch then Action.Admit ev.chat_id
       else Action.RedirectEvict ev.chat_id (some ch)) ∧
    PAYMENT_CHANNELS cfg amount = some ch := by
  have hmanaged : ¬(ev.chat_id ≠ cfg.ch49 ∧ ev.chat_id ≠ cfg.ch79) := by
    rcases hm with h | h <;> simp [h]
  constructor
  · rw [handle_chat_member, if_neg hmanaged]
    simp only [ht, if_true, hc]
    simp [Option.some.injEq]
  · exact check_true_channel cfg st ev.user_id (usernameOf ev) amount ch hc

/-- C1 witness: alice holds a completed active 299 subscription, whose
tier is the 49/299 channel "A"; she joins channel "B", so the handler
redirect-evicts her towards "A". -/
theorem c1_tier_routing_witness :
    (handle_chat_member cfgAB evJoinB (.ok [rowAlice299]) =
      if evJoinB.chat_id = cfgAB.ch49 then Action.Admit evJoinB.chat_id
      else Action.RedirectEvict evJoinB.chat_id (some cfgAB.ch49)) ∧
    PAYMENT_CHANNELS cfgAB (toString rowAlice299.amount_paid) = some cfgAB.ch49 :=
  c1_tier_routing cfgAB evJoinB (.ok [rowAlice299])
    (toString rowAlice299.amount_paid) cfgAB.ch49
    (Or.inr rfl) (by decide) (by decide)

/-- C2: for a join event in a managed channel, when the query returns no
qualifying row, or its first row carries an amount absent from the tier
table, the handler deny-evicts from the event channel. -/
theorem c2_deny_evict (cfg : Config) (ev : MemberEvent) (rows : List SubRow)
    (hm : ev.chat_id = cfg.ch49 ∨ ev.chat_id = cfg.ch79)
    (ht : joinTransition ev = true)
    (hcase : queryRows rows (usernameOf ev) = [] ∨
      ∃ sub rest, queryRows rows (usernameOf ev) = sub :: rest ∧
        PAYMENT_CHANNELS cfg (toString sub.amount_paid) = none) :
    handle_chat_member cfg ev (.ok rows) = Action.DenyEvict ev.chat_id := by
  have hmanaged : ¬(ev.chat_id ≠ cfg.ch49 ∧ ev.chat_id ≠ cfg.ch79) := by
    rcases hm with h | h <;> simp [h]
  rw [handle_chat_member, if_neg hmanaged]
  simp only [ht, if_true]
  rcases hcase with hq | ⟨sub, rest, hq, hp⟩
  · simp [check_user_subscription, hq]
  · simp [check_user_subscription, hq, hp]

/-- C2 witness: alice holds a completed active row with the unknown
amount 999 and joins the managed channel "A"; the handler deny-evicts. -/
theorem c2_deny_evict_witness :
    handle_chat_member cfgAB evJoinA (.ok [rowAlice999]) =
      Action.DenyEvict evJoinA.chat_id :=
  c2_deny_evict cfgAB evJoinA [rowAlice999] (Or.inl rfl) (by decide)
    (Or.inr ⟨rowAlice999, [], by decide, by decide⟩)

/-- C3 counterexample: a failing registry query and an empty registry
produce the identical lookup result `(False, None, None)` — there is no
distinct Unavailable value, so the caller cannot tell a query error from
the absence of a record, and no policy flag exists to govern the case. -/
theorem c3_no_unavailable_counterexample :
    check_user_subscription cfgAB .failing 1 nameAlice = (false, none, none) ∧
    check_user_subscription cfgAB (.ok []) 1 nameAlice = (false, none, none) :=
  ⟨rfl, rfl⟩

/-- C3 amended: a query error is conflated with the no-record result
`(False, None, None)`, so a join while the registry errors is always
deny-evicted (fail-closed); when the client was never initialized, the
lookup instead claims a 49 subscription, so a join is admitted in the
49/299 channel and redirect-evicted elsewhere (fail-open). Which of the
two happens is fixed by whether the client initialized, not by a policy
flag. -/
theorem c3_failure_behavior (cfg : Config) (ev : MemberEvent)
    (hm : ev.chat_id = cfg.ch49 ∨ ev.chat_id = cfg.ch79)
    (ht : joinTransition ev = true) :
    handle_chat_member cfg ev .failing = Action.DenyEvict ev.chat_id ∧
    handle_chat_member cfg ev .uninit =
      (if ev.chat_id = cfg.ch49 then Action.Admit ev.chat_id
       else Action.RedirectEvict ev.chat_id (some cfg.ch49)) ∧
    check_user_subscription cfg .failing ev.user_id (usernameOf ev) =
      check_user_subscription cfg (.ok []) ev.user_id (usernameOf ev) := by
  have hmanaged : ¬(ev.chat_id ≠ cfg.ch49 ∧ ev.chat_id ≠ cfg.ch79) := by
    rcases hm with h | h <;> simp [h]
  refine ⟨?_, ?_, rfl⟩
  · rw [handle_chat_member, if_neg hmanaged]
    simp [ht, check_user_subscription]
  · rw [handle_chat_member, if_neg hmanaged]
    simp [ht, check_user_subscription, Option.some.injEq]

/-- C3 witness: alice joins the managed channel "A" while the registry
errors (deny-evicted) and while the client is uninitialized (admitted,
since "A" is the 49/299 channel). -/
theorem c3_failure_behavior_witness :
    handle_chat_member cfgAB evJoinA .failing = Action.DenyEvict evJoinA.chat_id ∧
    (handle_chat_member cfgAB evJoinA .uninit =
      if evJoinA.chat_id = cfgAB.ch49 then Action.Admit evJoinA.chat_id
      else Action.RedirectEvict evJoinA.chat_id (some cfgAB.ch49)) ∧
    check_user_subscription cfgAB .failing evJoinA.user_id (usernameOf evJoinA) =
      check_user_subscription cfgAB (.ok []) evJoinA.user_id (usernameOf evJoinA) :=
  c3_failure_behavior cfgAB evJoinA (Or.inl rfl) (by decide)

/-- C4 counterexample: a completed active row whose numeric identity is
exactly the queried identity 7, but whose handle shares nothing with the
queried handle, satisfies the spec lookup predicate yet is invisible to
the code: the query result is the no-record triple, because the query
matches on the handle substring only and never on the identity. -/
theorem c4_identity_ignored_counterexample :
    specLookupMatches 7 nameAlice rowById7 = true ∧
    check_user_subscription cfgAB (.ok [rowById7]) 7 nameAlice =
      (false, none, none) := by
  constructor <;> decide

/-- C4 amended: the lookup result is independent of the numeric identity
and is fully determined by the first registry row matching the handle
filter (case-insensitive substring on the username, status completed,
active): known amount gives the success triple, unknown amount or no
match give the failure triples. -/
theorem c4_lookup_by_handle_only (cfg : Config) (rows : List SubRow)
    (uid uid2 : Int) (uname : String) :
    check_user_subscription cfg (.ok rows) uid uname =
      check_user_subscription cfg (.ok rows) uid2 uname ∧
    check_user_subscription cfg (.ok rows) uid uname =
      (match rows.find? (matchesQuery uname) with
       | none => (false, none, none)
       | some sub =>
         match PAYMENT_CHANNELS cfg (toString sub.amount_paid) with
         | some channel_id =>
             (true, some (toString sub.amount_paid), some channel_id)
         | none => (false, some (toString sub.amount_paid), none)) := by
  refine ⟨rfl, ?_⟩
  have hl : (queryRows rows uname).head? = rows.find? (matchesQuery uname) :=
    head_filter_eq_find (matchesQuery uname) rows
  cases hq : queryRows rows uname with
  | nil =>
    rw [hq] at hl
    simp only [List.head?_nil] at hl
    simp [check_user_subscription, hq, ← hl]
  | cons sub rest =>
    rw [hq] at hl
    simp only [List.head?_cons] at hl
    simp [check_user_subscription, hq, ← hl]

/-- C6: an event whose chat id is neither managed channel id yields no
action at all, whatever the registry holds. -/
theorem c6_unmanaged_noop (cfg : Config) (ev : MemberEvent) (st : Registry)
    (h1 : ev.chat_id ≠ cfg.ch49) (h2 : ev.chat_id ≠ cfg.ch79) :
    handle_chat_member cfg ev st = Action.NoOp := by
  rw [handle_chat_member, if_pos ⟨h1, h2⟩]

/-- C6 witness: alice joins the unmanaged channel "C" while holding a
valid 299 subscription; the handler does nothing. -/
theorem c6_unmanaged_noop_witness :
    handle_chat_member cfgAB evJoinC (.ok [rowAlice299]) = Action.NoOp :=
  c6_unmanaged_noop cfgAB evJoinC (.ok [rowAlice299]) (by decide) (by decide)

/-- C7: an event whose transition is not from the not-present class to
the present class yields no action, whatever the registry holds. -/
theorem c7_transition_noop (cfg : Config) (ev : MemberEvent) (st : Registry)
    (h : joinTransition ev = false) :
    handle_chat_member cfg ev st = Action.NoOp := by
  by_cases hm : ev.chat_id ≠ cfg.ch49 ∧ ev.chat_id ≠ cfg.ch79
  · rw [handle_chat_member, if_pos hm]
  · rw [handle_chat_member, if_neg hm]
    simp [h]

/-- C7 witness: a present-to-present transition of alice in the managed
channel "A", with a valid subscription on record, yields no action. -/
theorem c7_transition_noop_witness :
    handle_chat_member cfgAB evStayA (.ok [rowAlice299]) = Action.NoOp :=
  c7_transition_noop cfgAB evStayA (.ok [rowAlice299]) (by decide)

/-- C5: the `/approve` command performs no authentication — invoked by a
caller with no admin or owner status anywhere, it still unconditionally
replies with the approval text and inserts the manual record, and its
outcome is identical for an admin and a non-admin caller; there is no
denial branch. -/
theorem c5_approve_lacks_auth :
    manual_approve cfgAB false (some (5, some nameBob)) (cfgAB.ch49) (.ok []) =
      (.ok [manualRecord nameBob], approvedReply nameBob) ∧
    manual_approve cfgAB false (some (5, some nameBob)) (cfgAB.ch49) (.ok []) =
      manual_approve cfgAB true (some (5, some nameBob)) (cfgAB.ch49) (.ok []) :=
  ⟨rfl, rfl⟩

/-- C8: the admit branch always attempts exactly the unban call first and
the welcome notification second, for every combination of call outcomes:
a failed unban is swallowed and the welcome still goes out, and a failed
welcome leaves the earlier unban attempt and its outcome untouched. -/
theorem c8_admit_unban_before_welcome (chat_id : String) (user_id : Int)
    (username amount : String) (uOk sOk : Bool) :
    executeAdmit chat_id user_id username amount ⟨uOk, sOk⟩ =
      [(PlatformCall.unbanIfBanned chat_id user_id, uOk),
       (PlatformCall.channelMsg chat_id (welcomeText username amount), sOk)] :=
  rfl

/-- C9: with the registry client never initialized, the lookup reports a
valid 49 subscription for the 49/299 channel, for every identity and
every handle. -/
theorem c9_uninit_universal_pass (cfg : Config) (uid : Int) (uname : String) :
    check_user_subscription cfg .uninit uid uname =
      (true, some ("49"), some cfg.ch49) :=
  rfl

/-- C10: `/approve` of a target with no subscription inserts the manual
record, whose amount 0 is absent from the tier table; any later lookup
whose first query match is that record reports no subscription, so a
later join by the same handle is deny-evicted rather than admitted. -/
theorem c10_manual_approval_not_durable (cfg : Config) (uid : Int)
    (uname chat0 : String) (rows0 rows rest : List SubRow)
    (ev : MemberEvent) (adm : Bool)
    (h0 : queryRows rows0 uname = [])
    (hfind : queryRows rows (usernameOf ev) = manualRecord uname :: rest)
    (hm : ev.chat_id = cfg.ch49 ∨ ev.chat_id = cfg.ch79)
    (ht : joinTransition ev = true) :
    manual_approve cfg adm (some (uid, some uname)) chat0 (.ok rows0) =
      (.ok (rows0 ++ [manualRecord uname]), approvedReply uname) ∧
    (manualRecord uname).amount_paid = 0 ∧
    PAYMENT_CHANNELS cfg (toString (manualRecord uname).amount_paid) = none ∧
    check_user_subscription cfg (.ok rows) ev.user_id (usernameOf ev) =
      (false, some (toString (manualRecord uname).amount_paid), none) ∧
    handle_chat_member cfg ev (.ok rows) = Action.DenyEvict ev.chat_id := by
  refine ⟨?_, rfl, rfl, ?_, ?_⟩
  · simp [manual_approve, check_user_subscription, h0, insertRow]
  · have hz : (toString (0 : Int)) = "0" := rfl
    simp [check_user_subscription, hfind, manualRecord, PAYMENT_CHANNELS, hz]
  · exact c2_deny_evict cfg ev rows hm ht
      (Or.inr ⟨manualRecord uname, rest, hfind, rfl⟩)

/-- C10 witness: bob is manually approved into an empty registry; when he
later joins channel "A" the lookup finds only the manual zero-amount
record and the handler deny-evicts him. -/
theorem c10_manual_approval_not_durable_witness :
    manual_approve cfgAB false (some (6, some nameBob)) (cfgAB.ch49) (.ok []) =
      (.ok ([] ++ [manualRecord nameBob]), approvedReply nameBob) ∧
    (manualRecord nameBob).amount_paid = 0 ∧
    PAYMENT_CHANNELS cfgAB (toString (manualRecord nameBob).amount_paid) = none ∧
    check_user_subscription cfgAB (.ok [manualRecord nameBob])
        evBobJoinA.user_id (usernameOf evBobJoinA) =
      (false, some (toString (manualRecord nameBob).amount_paid), none) ∧
    handle_chat_member cfgAB evBobJoinA (.ok [manualRecord nameBob]) =
      Action.DenyEvict evBobJoinA.chat_id :=
  c10_manual_approval_not_durable cfgAB 6 nameBob cfgAB.ch49 []
    [manualRecord nameBob] [] evBobJoinA false (by decide) (by decide)
    (Or.inl rfl) (by decide)

end ApprovalBot
